import Mathlib

/-
Shallow embedding of the opcode dispatch table implemented in
src/src/hal/hal_utils/dispatch_table.c (bpm-sw, hal_utils).

Modelling conventions:
 - C pointers are `Option` values; `none` is the NULL pointer.
 - The backing CZMQ zhash container is an association list from string keys
   to handler records; `zhash_insert` refuses duplicate keys (returns -1),
   matching the documented CZMQ semantics the source relies on.
 - Heap allocation (zmalloc, key stringification) is modelled as always
   succeeding; out-of-memory paths are out of scope.  The owned return
   buffer is abstracted to a non-null token; its contents are not modelled.
 - Out-parameters of type void ** are modelled by returning the write that
   the function performs: `none` means the out-parameter was not touched,
   `some v` means it was set to the pointer value `v`.
 - The headers dispatch_table.h, hutils.h and the errhand assert macros are
   not part of the sources; the data model and those helpers are modelled
   from the specification (see the individual doc comments).  The assert
   macros log and jump to the given label; when an error code argument is
   given they first store it in the local variable err.  That reading is
   forced by the call sites: several functions using the code-less form
   have no local variable err at all, so the code-less form cannot assign.
-/

set_option maxRecDepth 8000

/-- Modelled from the spec: a C pointer value, `none` being NULL (dispatch_table.h is not under src). -/
abbrev cptr := Option Nat

/-- Modelled from the spec: an argument or return descriptor is an opaque packed
32-bit value carrying at least the byte size and a variability flag. -/
abbrev disp_arg_t := Nat

/-- Modelled from the spec: the ARG_END sentinel terminating argument lists and
denoting the absence of a return value. -/
def DISP_ARG_END : disp_arg_t := 0

/-- Modelled from the spec: the size accessor of a packed descriptor.  The exact
bit layout is implementation defined; here the low 16 bits hold the byte size,
so the size of DISP_ARG_END is zero as the spec requires. -/
def DISP_GET_ASIZE (arg : disp_arg_t) : Nat := arg % 65536

/-- Modelled from the spec: the hutils error enumeration (hutils_err.h is not
under src).  Only the codes reached by the dispatch table are listed. -/
inductive hutils_err_e where
  | HUTILS_SUCCESS
  | HUTILS_ERR_ALLOC
  | HUTILS_ERR_NULL_POINTER
  | HUTILS_ERR_NO_FUNC_REG
  | HUTILS_ERR_MSG_INV
deriving DecidableEq

open hutils_err_e

/-- Modelled from the spec: the return-value ownership flag. -/
inductive disp_owner_e where
  | DISP_OWNER_TABLE
  | DISP_OWNER_FUNC
deriving DecidableEq

open disp_owner_e

/-- A handler function pointer: (owner, args, ret) to an integer status. -/
abbrev disp_table_func_fp := cptr → cptr → cptr → Int

/-- Modelled from the spec: the operation descriptor disp_op_t. -/
structure disp_op_t where
  name : String
  opcode : Nat
  func_fp : Option disp_table_func_fp
  retval : disp_arg_t
  retval_owner : disp_owner_e
  args : List disp_arg_t

/-- Modelled from the spec: the handler record disp_op_handler_t pairing a
descriptor with the table-owned return buffer (`none` when no buffer is owned). -/
structure disp_op_handler_t where
  op : disp_op_t
  ret : cptr

/-- The CZMQ zhash container, modelled as an association list. -/
abbrev zhash_t := List (String × disp_op_handler_t)

/-- zhash_lookup: first binding of the key, or NULL. -/
def zhash_lookup : zhash_t → String → Option disp_op_handler_t
  | [], _ => none
  | kv :: rest, k => if kv.1 = k then some kv.2 else zhash_lookup rest k

/-- zhash_insert: refuses duplicate keys, returning -1 and leaving the table
unchanged; otherwise adds the binding and returns 0. -/
def zhash_insert (h : zhash_t) (k : String) (item : disp_op_handler_t) : Int × zhash_t :=
  match zhash_lookup h k with
  | some _ => (-1, h)
  | none => (0, (k, item) :: h)

/-- zhash_delete: removes the binding of the key.  Keys are unique on every
state built through zhash_insert; the recursion removes every binding of the
key, which coincides with CZMQ on such states. -/
def zhash_delete : zhash_t → String → zhash_t
  | [], _ => []
  | kv :: rest, k => if kv.1 = k then zhash_delete rest k else kv :: zhash_delete rest k

/-- In-place mutation of the record found by zhash_lookup, modelled as replacing
the first binding of the key. -/
def zhash_update : zhash_t → String → disp_op_handler_t → zhash_t
  | [], _, _ => []
  | kv :: rest, k, item => if kv.1 = k then (kv.1, item) :: rest else kv :: zhash_update rest k item

/-- Modelled from the spec: the validation hook set.  The only hook the core
recognises is check_msg_args; `none` models a NULL function pointer.  The C hook
also receives the table handle as context; that argument is dropped here to
keep the types non-recursive (the table passes itself verbatim). -/
structure disp_table_ops_t where
  check_msg_args : Option (disp_op_t → cptr → hutils_err_e)

/-- Modelled from the spec: the dispatch table, a string-keyed map of handler
records plus the borrowed validation hook set. -/
structure disp_table_t where
  table_h : zhash_t
  ops : disp_table_ops_t

/-- Modelled from the spec: hutils_stringify_hex_key (hutils is not under src):
the lowercase hexadecimal rendering of the 32-bit opcode, no padding and no 0x
prefix.  Allocation failure is not modelled. -/
def hutils_stringify_hex_key (key : Nat) : String :=
  String.mk (Nat.toDigits 16 key)

/-- dispatch_table.c, _disp_table_lookup (lines 440-455): stringify the key and
look the record up; misses yield NULL. -/
def _disp_table_lookup (self : disp_table_t) (key : Nat) : Option disp_op_handler_t :=
  zhash_lookup self.table_h (hutils_stringify_hex_key key)

/-- dispatch_table.c, _disp_table_alloc_ret (lines 318-343): no allocation when
the handler owns the return value, none when the encoded size is zero; otherwise
allocate the buffer (modelled by the non-null token `some 0`; zmalloc never
fails in this embedding).  The function returns the value stored into *ret,
which the caller initialised to NULL. -/
def _disp_table_alloc_ret (disp_op : disp_op_t) : cptr :=
  if disp_op.retval_owner = DISP_OWNER_FUNC then
    none
  else if DISP_GET_ASIZE disp_op.retval = 0 then
    none
  else
    some 0

/-- dispatch_table.c, _disp_table_cleanup_args_op (lines 485-500): when the
record holds a buffer and the table owns it, free it and null the field; a
record owned by the handler is left untouched.  Always returns success. -/
def _disp_table_cleanup_args_op (disp_op_handler : disp_op_handler_t) :
    hutils_err_e × disp_op_handler_t :=
  match disp_op_handler.ret with
  | none => (HUTILS_SUCCESS, disp_op_handler)
  | some _ =>
      if disp_op_handler.op.retval_owner = DISP_OWNER_FUNC then
        (HUTILS_SUCCESS, disp_op_handler)
      else
        (HUTILS_SUCCESS, { disp_op_handler with ret := none })

/-- dispatch_table.c, _disp_table_insert (lines 203-242): wrap the descriptor in
a fresh handler record, allocate the owned return buffer, stringify the opcode
and insert into the hash.  A zhash_insert failure (duplicate key) unwinds the
record and returns HUTILS_ERR_ALLOC with the table unchanged. -/
def _disp_table_insert (self : disp_table_t) (disp_op : disp_op_t) :
    hutils_err_e × disp_table_t :=
  let disp_op_handler : disp_op_handler_t :=
    { op := disp_op, ret := _disp_table_alloc_ret disp_op }
  let key_c := hutils_stringify_hex_key disp_op.opcode
  let zr := zhash_insert self.table_h key_c disp_op_handler
  if zr.1 = 0 then
    (HUTILS_SUCCESS, { self with table_h := zr.2 })
  else
    (HUTILS_ERR_ALLOC, self)

/-- dispatch_table.c, _disp_table_insert_all (lines 250-271): insert each
descriptor of the NULL-terminated array in order; a failing insert exits the
loop.  The loop declares an inner err that shadows the outer one set to
HUTILS_SUCCESS, and the code-less ASSERT_TEST only jumps, so the error exit
returns the outer variable: the function yields HUTILS_SUCCESS even when an
insertion failed. -/
def _disp_table_insert_all : disp_table_t → List disp_op_t → hutils_err_e × disp_table_t
  | self, [] => (HUTILS_SUCCESS, self)
  | self, disp_op :: rest =>
      match _disp_table_insert self disp_op with
      | (HUTILS_SUCCESS, self2) => _disp_table_insert_all self2 rest
      | (_, self2) => (HUTILS_SUCCESS, self2)

/-- dispatch_table.c, _disp_table_remove (lines 273-300): stringify the key,
look the record up (a miss jumps to the error exit, which returns
HUTILS_ERR_ALLOC), release the owned return buffer and delete the hash entry. -/
def _disp_table_remove (self : disp_table_t) (key : Nat) : hutils_err_e × disp_table_t :=
  let key_c := hutils_stringify_hex_key key
  match zhash_lookup self.table_h key_c with
  | none => (HUTILS_ERR_ALLOC, self)
  | some disp_op_handler =>
      let _cleanup := _disp_table_cleanup_args_op disp_op_handler
      (HUTILS_SUCCESS, { self with table_h := zhash_delete self.table_h key_c })

/-- dispatch_table.c, disp_table_ops_check_msg (lines 531-533) plus the wrapper
macros (506-528): returns HUTILS_ERR_NO_FUNC_REG when the hook pointer is NULL,
and the hook verdict otherwise. -/
def disp_table_ops_check_msg (self : disp_table_t) (disp_op : disp_op_t) (args : cptr) :
    hutils_err_e :=
  match self.ops.check_msg_args with
  | none => HUTILS_ERR_NO_FUNC_REG
  | some f => f disp_op args

/-- dispatch_table.c, _disp_table_set_ret_op (lines 457-483): with no declared
return value, write NULL into *ret and succeed; otherwise require the owned
buffer to be non-NULL (else HUTILS_ERR_ALLOC, *ret untouched) and write it into
*ret.  The second component records the write to *ret. -/
def _disp_table_set_ret_op (disp_op_handler : disp_op_handler_t) :
    hutils_err_e × Option cptr :=
  if disp_op_handler.op.retval = DISP_ARG_END then
    (HUTILS_SUCCESS, some none)
  else
    match disp_op_handler.ret with
    | none => (HUTILS_ERR_ALLOC, none)
    | some b => (HUTILS_SUCCESS, some (some b))

/-- dispatch_table.c, _disp_table_check_args (lines 358-378): a lookup miss
fails with HUTILS_ERR_NO_FUNC_REG; then the validation hook runs and any
non-success verdict is returned verbatim; only then is *ret bound through
_disp_table_set_ret_op.  The second component records the write to *ret. -/
def _disp_table_check_args (self : disp_table_t) (key : Nat) (args : cptr) :
    hutils_err_e × Option cptr :=
  match _disp_table_lookup self key with
  | none => (HUTILS_ERR_NO_FUNC_REG, none)
  | some disp_op_handler =>
      let err := disp_table_ops_check_msg self disp_op_handler.op args
      if err = HUTILS_SUCCESS then
        _disp_table_set_ret_op disp_op_handler
      else
        (err, none)

/-- dispatch_table.c, _disp_table_call (lines 380-407): -1 on a lookup miss, a
NULL registered function pointer, or a violated return-pointer consistency
rule; otherwise the handler verdict is returned verbatim. -/
def _disp_table_call (self : disp_table_t) (key : Nat) (owner args ret : cptr) : Int :=
  match _disp_table_lookup self key with
  | none => -1
  | some disp_op_handler =>
      match disp_op_handler.op.func_fp with
      | none => -1
      | some f =>
          if (disp_op_handler.op.retval ≠ DISP_ARG_END ∧ ret ≠ none) ∨
             (disp_op_handler.op.retval = DISP_ARG_END ∧ ret = none) then
            f owner args ret
          else
            -1

/-- dispatch_table.c, disp_table_fill_desc (lines 116-141): walk the two
NULL-terminated arrays in lockstep, storing each function pointer into the
matching descriptor; when exactly one array is exhausted, fail with
HUTILS_ERR_NULL_POINTER leaving the assignments already made in place.  The
second component is the descriptor array after the call. -/
def disp_table_fill_desc : List disp_op_t → List disp_table_func_fp →
    hutils_err_e × List disp_op_t
  | [], [] => (HUTILS_SUCCESS, [])
  | disp_op :: disp_ops, func_fp :: func_fps =>
      let r := disp_table_fill_desc disp_ops func_fps
      (r.1, { disp_op with func_fp := some func_fp } :: r.2)
  | disp_ops, [] => (HUTILS_ERR_NULL_POINTER, disp_ops)
  | [], _ => (HUTILS_ERR_NULL_POINTER, [])

/-- dispatch_table.c, disp_table_cleanup_args (lines 149-160): a lookup miss
fails with HUTILS_ERR_NO_FUNC_REG; otherwise the record cleanup runs on the
stored record (an in-place mutation, modelled by updating the binding). -/
def disp_table_cleanup_args (self : disp_table_t) (key : Nat) :
    hutils_err_e × disp_table_t :=
  match _disp_table_lookup self key with
  | none => (HUTILS_ERR_NO_FUNC_REG, self)
  | some disp_op_handler =>
      let r := _disp_table_cleanup_args_op disp_op_handler
      (r.1, { self with
        table_h := zhash_update self.table_h (hutils_stringify_hex_key key) r.2 })

/-- dispatch_table.c, disp_table_lookup (lines 162-166): the public lookup
returns disp_op_handler->op without checking the record pointer.  The map is
the descriptor actually returned when the record exists. -/
def disp_table_lookup (self : disp_table_t) (key : Nat) : Option disp_op_t :=
  (_disp_table_lookup self key).map (fun disp_op_handler => disp_op_handler.op)

/-- True exactly when the public disp_table_lookup dereferences a NULL handler
record, i.e. when line 165 of dispatch_table.c reads disp_op_handler->op from a
NULL pointer (undefined behavior in the C source). -/
def disp_table_lookup_faults (self : disp_table_t) (key : Nat) : Bool :=
  (_disp_table_lookup self key).isNone

/-! ### Helper lemmas about the zhash model -/

lemma zhash_lookup_delete (l : zhash_t) (k : String) :
    zhash_lookup (zhash_delete l k) k = none := by
  induction l with
  | nil => rfl
  | cons kv rest ih =>
      by_cases h : kv.1 = k
      · simp [zhash_delete, h, ih]
      · simp [zhash_delete, zhash_lookup, h, ih]

lemma zhash_lookup_update (l : zhash_t) (k : String) (v w : disp_op_handler_t)
    (hl : zhash_lookup l k = some v) :
    zhash_lookup (zhash_update l k w) k = some w := by
  induction l with
  | nil => simp [zhash_lookup] at hl
  | cons kv rest ih =>
      by_cases h : kv.1 = k
      · simp [zhash_update, zhash_lookup, h]
      · simp only [zhash_lookup, if_neg h] at hl
        simp [zhash_update, zhash_lookup, h, ih hl]

lemma zhash_update_self (l : zhash_t) (k : String) (v : disp_op_handler_t)
    (hl : zhash_lookup l k = some v) :
    zhash_update l k v = l := by
  induction l with
  | nil => rfl
  | cons kv rest ih =>
      obtain ⟨k2, v2⟩ := kv
      by_cases h : k2 = k
      · have hv : v2 = v := by
          simpa [zhash_lookup, h] using hl
        simp [zhash_update, h, hv]
      · simp only [zhash_lookup, if_neg h] at hl
        simp [zhash_update, h, ih hl]

lemma mem_zhash_delete {kv : String × disp_op_handler_t} {l : zhash_t} {k : String}
    (h : kv ∈ zhash_delete l k) : kv ∈ l := by
  induction l with
  | nil => simp [zhash_delete] at h
  | cons kv2 rest ih =>
      by_cases h2 : kv2.1 = k
      · rw [zhash_delete, if_pos h2] at h
        exact List.mem_cons_of_mem _ (ih h)
      · rw [zhash_delete, if_neg h2] at h
        rcases List.mem_cons.mp h with h3 | h3
        · exact h3 ▸ List.mem_cons_self _ _
        · exact List.mem_cons_of_mem _ (ih h3)

/-! ### Characterisations of the table operations -/

lemma alloc_ret_spec (d : disp_op_t) :
    _disp_table_alloc_ret d ≠ none ↔
      (d.retval_owner = DISP_OWNER_TABLE ∧ DISP_GET_ASIZE d.retval ≠ 0) := by
  unfold _disp_table_alloc_ret
  cases ho : d.retval_owner <;> by_cases hs : DISP_GET_ASIZE d.retval = 0 <;> simp [ho, hs]

lemma insert_eq (t : disp_table_t) (d : disp_op_t) :
    _disp_table_insert t d =
      match zhash_lookup t.table_h (hutils_stringify_hex_key d.opcode) with
      | some _ => (HUTILS_ERR_ALLOC, t)
      | none => (HUTILS_SUCCESS,
          { t with table_h := (hutils_stringify_hex_key d.opcode,
              { op := d, ret := _disp_table_alloc_ret d }) :: t.table_h }) := by
  unfold _disp_table_insert zhash_insert
  rcases h : zhash_lookup t.table_h (hutils_stringify_hex_key d.opcode) with _ | v <;> simp [h]

lemma remove_eq (t : disp_table_t) (k : Nat) :
    _disp_table_remove t k =
      match zhash_lookup t.table_h (hutils_stringify_hex_key k) with
      | none => (HUTILS_ERR_ALLOC, t)
      | some _ => (HUTILS_SUCCESS,
          { t with table_h := zhash_delete t.table_h (hutils_stringify_hex_key k) }) := by
  unfold _disp_table_remove
  rcases h : zhash_lookup t.table_h (hutils_stringify_hex_key k) with _ | v <;> simp [h]

/-! ### Concrete fixtures used by the witnesses and counterexamples -/

/-- A hook set whose check_msg_args accepts every payload. -/
def ok_ops : disp_table_ops_t := { check_msg_args := some (fun _ _ => HUTILS_SUCCESS) }

/-- The empty dispatch table bound to the accepting hook set. -/
def empty_table : disp_table_t := { table_h := [], ops := ok_ops }

/-- Descriptor with opcode 1, no return value, no handler. -/
def d1a : disp_op_t :=
  { name := "op1", opcode := 1, func_fp := none, retval := DISP_ARG_END,
    retval_owner := DISP_OWNER_FUNC, args := [] }

/-- Descriptor with opcode 2, no return value, no handler. -/
def d1b : disp_op_t :=
  { name := "op2", opcode := 2, func_fp := none, retval := DISP_ARG_END,
    retval_owner := DISP_OWNER_FUNC, args := [] }

/-- The table holding only d1a. -/
def t1a : disp_table_t := (_disp_table_insert empty_table d1a).2

/-- Descriptor with opcode 7, no return value, no handler. -/
def d3 : disp_op_t :=
  { name := "op7", opcode := 7, func_fp := none, retval := DISP_ARG_END,
    retval_owner := DISP_OWNER_FUNC, args := [] }

/-- The table holding only d3. -/
def t3 : disp_table_t := (_disp_table_insert empty_table d3).2

/-- Claim C1: insert_all inserts the descriptors in order and stops at the first
failing entry, the earlier entries remaining in the table; but the source
returns the outer shadowed error variable, so the failing entry error code
(HUTILS_ERR_ALLOC here) is replaced by HUTILS_SUCCESS: inserting [d1a, d1b]
into a table that already holds opcode 1 fails on d1a, never reaches d1b, and
still reports success. -/
theorem c1_insert_all_masks_failure :
    (_disp_table_insert t1a d1a).1 = HUTILS_ERR_ALLOC ∧
    _disp_table_insert_all t1a [d1a, d1b] = (HUTILS_SUCCESS, t1a) ∧
    _disp_table_lookup t1a d1a.opcode = some { op := d1a, ret := none } ∧
    _disp_table_lookup t1a d1b.opcode = none :=
  ⟨rfl, rfl, rfl, rfl⟩

/-- Claim C2: the public lookup should return a null descriptor for an
unregistered opcode, but the source dereferences the NULL handler record
(undefined behavior); for a registered opcode it does return that descriptor. -/
theorem c2_lookup_null_deref :
    disp_table_lookup_faults empty_table 153 = true ∧
    disp_table_lookup t1a 1 = some d1a ∧
    disp_table_lookup_faults t1a 1 = false :=
  ⟨rfl, rfl, rfl⟩

/-- Claim C3, counterexample: removing an opcode absent from the table does not
return success; it returns HUTILS_ERR_ALLOC. -/
theorem c3_counterexample :
    _disp_table_lookup empty_table 1 = none ∧
    (_disp_table_remove empty_table 1).1 = HUTILS_ERR_ALLOC ∧
    (_disp_table_remove empty_table 1).1 ≠ HUTILS_SUCCESS :=
  ⟨rfl, rfl, by decide⟩

/-- Claim C3, amended: remove of an absent opcode fails with HUTILS_ERR_ALLOC
and leaves the table unchanged (the lookup miss is reported as an error, not
tolerated); consequently a second remove of the same opcode after a successful
one also returns HUTILS_ERR_ALLOC. -/
theorem c3_remove_missing_key (t : disp_table_t) (k : Nat) :
    (_disp_table_lookup t k = none → _disp_table_remove t k = (HUTILS_ERR_ALLOC, t)) ∧
    ((_disp_table_remove t k).1 = HUTILS_SUCCESS →
      _disp_table_remove (_disp_table_remove t k).2 k =
        (HUTILS_ERR_ALLOC, (_disp_table_remove t k).2)) := by
  constructor
  · intro h
    rw [_disp_table_lookup] at h
    rw [remove_eq, h]
  · intro h
    rcases hl : zhash_lookup t.table_h (hutils_stringify_hex_key k) with _ | v
    · rw [remove_eq, hl] at h
      simp at h
    · have h2 : (_disp_table_remove t k).2 =
          { t with table_h := zhash_delete t.table_h (hutils_stringify_hex_key k) } := by
        rw [remove_eq, hl]
      rw [h2, remove_eq]
      simp [zhash_lookup_delete]

/-- Claim C3, witness: the amended statement evaluated on the empty table and on
the singleton table t3. -/
theorem c3_remove_witness :
    _disp_table_remove empty_table 6 = (HUTILS_ERR_ALLOC, empty_table) ∧
    _disp_table_remove (_disp_table_remove t3 7).2 7 =
      (HUTILS_ERR_ALLOC, (_disp_table_remove t3 7).2) :=
  ⟨(c3_remove_missing_key empty_table 6).1 rfl,
   (c3_remove_missing_key t3 7).2 rfl⟩

/-! ### The return-buffer ownership invariant (claim C4) -/

/-- The stored return buffer of a record is non-NULL exactly when the table owns
the return value and its encoded size is non-zero. -/
def handler_ret_consistent (disp_op_handler : disp_op_handler_t) : Prop :=
  disp_op_handler.ret ≠ none ↔
    (disp_op_handler.op.retval_owner = DISP_OWNER_TABLE ∧
     DISP_GET_ASIZE disp_op_handler.op.retval ≠ 0)

instance (disp_op_handler : disp_op_handler_t) :
    Decidable (handler_ret_consistent disp_op_handler) := by
  unfold handler_ret_consistent
  infer_instance

/-- Every record registered in the table satisfies handler_ret_consistent. -/
def table_ret_consistent (t : disp_table_t) : Prop :=
  ∀ kv ∈ t.table_h, handler_ret_consistent kv.2

instance (t : disp_table_t) : Decidable (table_ret_consistent t) := by
  unfold table_ret_consistent
  exact List.decidableBAll _ _

lemma insert_ret_consistent (t : disp_table_t) (d : disp_op_t)
    (ht : table_ret_consistent t) : table_ret_consistent (_disp_table_insert t d).2 := by
  rw [insert_eq]
  rcases hl : zhash_lookup t.table_h (hutils_stringify_hex_key d.opcode) with _ | v
  · simp only [hl]
    intro kv hkv
    rcases List.mem_cons.mp hkv with h | h
    · subst h
      simpa [handler_ret_consistent] using alloc_ret_spec d
    · exact ht kv h
  · simp only [hl]
    exact ht

lemma remove_ret_consistent (t : disp_table_t) (k : Nat)
    (ht : table_ret_consistent t) : table_ret_consistent (_disp_table_remove t k).2 := by
  rw [remove_eq]
  rcases hl : zhash_lookup t.table_h (hutils_stringify_hex_key k) with _ | v
  · simp only [hl]
    exact ht
  · simp only [hl]
    intro kv hkv
    exact ht kv (mem_zhash_delete hkv)

/-- A registration-surface operation on the table. -/
inductive table_op where
  | op_insert (disp_op : disp_op_t)
  | op_remove (key : Nat)

def apply_table_op (t : disp_table_t) : table_op → disp_table_t
  | .op_insert disp_op => (_disp_table_insert t disp_op).2
  | .op_remove key => (_disp_table_remove t key).2

def apply_table_ops (t : disp_table_t) (l : List table_op) : disp_table_t :=
  l.foldl apply_table_op t

/-- Claim C4, amended: for every registered entry, from the moment insert
succeeds until the entry is removed, the stored return buffer is non-null iff
the return ownership is OWNER_TABLE and the encoded size of retval is non-zero
(for a retval of size zero the buffer stays nil even though retval differs from
ARG_END); in particular OWNER_FUNC entries keep a nil buffer throughout.  The
invariant holds in any table reachable from a consistent one by inserts and
removes (cleanup_args, a removal-path step, releases the buffer early). -/
theorem c4_ret_buffer_invariant (t : disp_table_t) (l : List table_op)
    (ht : table_ret_consistent t) :
    table_ret_consistent (apply_table_ops t l) ∧
    ∀ kv ∈ (apply_table_ops t l).table_h,
      kv.2.op.retval_owner = DISP_OWNER_FUNC → kv.2.ret = none := by
  have main : table_ret_consistent (apply_table_ops t l) := by
    induction l generalizing t with
    | nil => exact ht
    | cons op rest ih =>
        have h1 : table_ret_consistent (apply_table_op t op) := by
          cases op with
          | op_insert d => exact insert_ret_consistent t d ht
          | op_remove k => exact remove_ret_consistent t k ht
        exact ih (apply_table_op t op) h1
  refine ⟨main, fun kv hkv hfunc => ?_⟩
  by_contra hne
  have h3 := main kv hkv
  unfold handler_ret_consistent at h3
  have h2 := h3.mp hne
  rw [hfunc] at h2
  exact absurd h2.1 (by simp)

/-- Descriptor with opcode 3 whose return descriptor is not ARG_END but has
encoded size zero, with table ownership. -/
def d4z : disp_op_t :=
  { name := "zero_size_ret", opcode := 3, func_fp := none, retval := 65536,
    retval_owner := DISP_OWNER_TABLE, args := [] }

/-- The table holding only d4z. -/
def t4z : disp_table_t := (_disp_table_insert empty_table d4z).2

/-- Claim C4, counterexample: inserting d4z succeeds, its retval is not ARG_END
and the table owns the return value, yet the stored return buffer is nil,
refuting the claimed iff. -/
theorem c4_counterexample :
    (_disp_table_insert empty_table d4z).1 = HUTILS_SUCCESS ∧
    d4z.retval ≠ DISP_ARG_END ∧
    d4z.retval_owner = DISP_OWNER_TABLE ∧
    (_disp_table_lookup t4z 3).map (fun disp_op_handler => disp_op_handler.ret) =
      some none :=
  ⟨rfl, by decide, rfl, rfl⟩

/-- Descriptor with opcode 8, table-owned return of size 4. -/
def dT4 : disp_op_t :=
  { name := "owned_ret", opcode := 8, func_fp := none, retval := 4,
    retval_owner := DISP_OWNER_TABLE, args := [] }

/-- Descriptor with opcode 9, handler-owned return of size 4. -/
def dF4 : disp_op_t :=
  { name := "func_ret", opcode := 9, func_fp := none, retval := 4,
    retval_owner := DISP_OWNER_FUNC, args := [] }

/-- Insert an owned-return entry and a handler-owned entry, then remove one. -/
def ops4 : List table_op :=
  [table_op.op_insert dT4, table_op.op_insert dF4, table_op.op_remove 8]

/-- Claim C4, witness: the invariant evaluated along a concrete operation
sequence starting from the empty table. -/
theorem c4_ret_witness :
    table_ret_consistent empty_table ∧
    table_ret_consistent (apply_table_ops empty_table ops4) :=
  ⟨by decide, (c4_ret_buffer_invariant empty_table ops4 (by decide)).1⟩

/-- Claim C5: call returns -1 on a lookup miss, on a NULL registered handler
pointer, and on a violated return-pointer consistency rule
(retval different from ARG_END iff ret non-NULL); otherwise it invokes
handler(owner, args, ret) and returns its status verbatim, negative values
included. -/
theorem c5_call_dispatch (t : disp_table_t) (k : Nat) (owner args ret : cptr) :
    (_disp_table_lookup t k = none → _disp_table_call t k owner args ret = -1) ∧
    ∀ h, _disp_table_lookup t k = some h →
      (h.op.func_fp = none → _disp_table_call t k owner args ret = -1) ∧
      (¬ ((h.op.retval ≠ DISP_ARG_END) ↔ (ret ≠ none)) →
          _disp_table_call t k owner args ret = -1) ∧
      ∀ f, h.op.func_fp = some f → ((h.op.retval ≠ DISP_ARG_END) ↔ (ret ≠ none)) →
          _disp_table_call t k owner args ret = f owner args ret := by
  constructor
  · intro hl
    simp [_disp_table_call, hl]
  · intro h hl
    refine ⟨fun hf => by simp [_disp_table_call, hl, hf], ?_, ?_⟩
    · intro hnc
      rcases hf : h.op.func_fp with _ | f
      · simp [_disp_table_call, hl, hf]
      · have hcond : ¬ ((h.op.retval ≠ DISP_ARG_END ∧ ret ≠ none) ∨
            (h.op.retval = DISP_ARG_END ∧ ret = none)) := by
          intro hc
          apply hnc
          rcases hc with ⟨h1, h2⟩ | ⟨h1, h2⟩
          · exact ⟨fun _ => h2, fun _ => h1⟩
          · constructor
            · intro hx
              exact absurd h1 hx
            · intro hx
              exact absurd h2 hx
        simp [_disp_table_call, hl, hf, hcond]
    · intro f hf hc
      have hcond : (h.op.retval ≠ DISP_ARG_END ∧ ret ≠ none) ∨
          (h.op.retval = DISP_ARG_END ∧ ret = none) := by
        by_cases h1 : h.op.retval = DISP_ARG_END
        · right
          refine ⟨h1, ?_⟩
          by_contra h2
          exact absurd h1 (hc.mpr h2)
        · left
          exact ⟨h1, hc.mp h1⟩
      simp [_disp_table_call, hl, hf, hcond]

/-- A handler that reports the negative status -7. -/
def fW : disp_table_func_fp := fun _ _ _ => -7

/-- Descriptor with opcode 4 bound to fW, no return value. -/
def dW : disp_op_t :=
  { name := "neg_status", opcode := 4, func_fp := some fW, retval := DISP_ARG_END,
    retval_owner := DISP_OWNER_FUNC, args := [] }

/-- The table holding only dW. -/
def tW : disp_table_t := (_disp_table_insert empty_table dW).2

/-- The record stored for dW. -/
def hW : disp_op_handler_t := { op := dW, ret := none }

/-- Claim C5, witness: calling the registered opcode 4 with a consistent NULL
ret pointer passes the negative handler status through unmolested. -/
theorem c5_call_witness : _disp_table_call tW 4 none none none = -7 := by
  have h := ((c5_call_dispatch tW 4 none none none).2 hW rfl).2.2 fW rfl (by decide)
  exact h.trans rfl

/-- Claim C6, amended: check_args fails with HUTILS_ERR_NO_FUNC_REG when the
opcode is not registered; otherwise it invokes the validation hook and returns
any non-success verdict verbatim without binding ret (and without reaching the
handler, which check_args never invokes); on hook success it binds ret to nil
when retval is ARG_END, to the stored return buffer when that buffer is
non-nil, returning success in both cases, and when retval is not ARG_END but
the stored buffer is nil (a zero-size retval entry) it returns HUTILS_ERR_ALLOC
without binding ret. -/
theorem c6_check_args_behavior (t : disp_table_t) (k : Nat) (args : cptr) :
    (_disp_table_lookup t k = none →
        _disp_table_check_args t k args = (HUTILS_ERR_NO_FUNC_REG, none)) ∧
    ∀ h, _disp_table_lookup t k = some h →
      (disp_table_ops_check_msg t h.op args ≠ HUTILS_SUCCESS →
          _disp_table_check_args t k args = (disp_table_ops_check_msg t h.op args, none)) ∧
      (disp_table_ops_check_msg t h.op args = HUTILS_SUCCESS →
        (h.op.retval = DISP_ARG_END →
            _disp_table_check_args t k args = (HUTILS_SUCCESS, some none)) ∧
        (∀ b, h.ret = some b → h.op.retval ≠ DISP_ARG_END →
            _disp_table_check_args t k args = (HUTILS_SUCCESS, some (some b))) ∧
        (h.ret = none → h.op.retval ≠ DISP_ARG_END →
            _disp_table_check_args t k args = (HUTILS_ERR_ALLOC, none))) := by
  constructor
  · intro hl
    simp [_disp_table_check_args, hl]
  · intro h hl
    constructor
    · intro hne
      simp [_disp_table_check_args, hl, hne]
    · intro hs
      refine ⟨?_, ?_, ?_⟩
      · intro hend
        simp [_disp_table_check_args, hl, hs, _disp_table_set_ret_op, hend]
      · intro b hb hend
        simp [_disp_table_check_args, hl, hs, _disp_table_set_ret_op, hend, hb]
      · intro hb hend
        simp [_disp_table_check_args, hl, hs, _disp_table_set_ret_op, hend, hb]

/-- Claim C6, counterexample: opcode 3 is registered and the hook accepts the
payload, yet check_args neither binds ret nor returns success: the stored
buffer of the zero-size-retval entry is nil, so the bind step fails with
HUTILS_ERR_ALLOC. -/
theorem c6_counterexample :
    _disp_table_lookup t4z 3 = some { op := d4z, ret := none } ∧
    disp_table_ops_check_msg t4z d4z none = HUTILS_SUCCESS ∧
    _disp_table_check_args t4z 3 none = (HUTILS_ERR_ALLOC, none) :=
  ⟨rfl, rfl, rfl⟩

/-- Claim C6, witness: the amended statement evaluated on a missing opcode and
on a registered no-return-value opcode whose hook accepts the payload. -/
theorem c6_check_args_witness :
    _disp_table_check_args empty_table 9 none = (HUTILS_ERR_NO_FUNC_REG, none) ∧
    _disp_table_check_args tW 4 none = (HUTILS_SUCCESS, some none) := by
  refine ⟨(c6_check_args_behavior empty_table 9 none).1 rfl, ?_⟩
  exact (((c6_check_args_behavior tW 4 none).2 hW rfl).2 rfl).1 rfl

/-- Claim C7: fill_desc succeeds exactly when the two NULL-terminated sequences
have the same length; the resulting descriptor sequence is the pairwise-assigned
prefix (descriptor i holding handler i) followed by the untouched surplus
descriptors, so on success every descriptor holds its handler and on a length
mismatch the call fails with HUTILS_ERR_NULL_POINTER leaving the partial
assignment intact. -/
theorem c7_fill_desc_pairing (ds : List disp_op_t) (fs : List disp_table_func_fp) :
    ((disp_table_fill_desc ds fs).1 = HUTILS_SUCCESS ↔ ds.length = fs.length) ∧
    (ds.length ≠ fs.length →
        (disp_table_fill_desc ds fs).1 = HUTILS_ERR_NULL_POINTER) ∧
    ((disp_table_fill_desc ds fs).2 =
        (ds.zip fs).map (fun p => { p.1 with func_fp := some p.2 }) ++
          ds.drop fs.length) := by
  induction ds generalizing fs with
  | nil =>
      cases fs with
      | nil => simp [disp_table_fill_desc]
      | cons f fs => simp [disp_table_fill_desc]
  | cons d ds ih =>
      cases fs with
      | nil => simp [disp_table_fill_desc]
      | cons f fs =>
          have ihx := ih fs
          refine ⟨?_, ?_, ?_⟩
          · simpa [disp_table_fill_desc] using ihx.1
          · intro hne
            have hne2 : ds.length ≠ fs.length := by
              intro h2
              exact hne (by simp [h2])
            simpa [disp_table_fill_desc] using ihx.2.1 hne2
          · simp [disp_table_fill_desc, ihx.2.2]

/-- A handler reporting status 0. -/
def fF1 : disp_table_func_fp := fun _ _ _ => 0

/-- Descriptor with opcode 21, initially without a handler. -/
def dF1 : disp_op_t :=
  { name := "fd1", opcode := 21, func_fp := none, retval := DISP_ARG_END,
    retval_owner := DISP_OWNER_FUNC, args := [] }

/-- Descriptor with opcode 22, initially without a handler. -/
def dF2 : disp_op_t :=
  { name := "fd2", opcode := 22, func_fp := none, retval := DISP_ARG_END,
    retval_owner := DISP_OWNER_FUNC, args := [] }

/-- Claim C7, witness: the uneven fill of spec scenario S5 fails with
HUTILS_ERR_NULL_POINTER while the first descriptor has received its handler and
the second is untouched. -/
theorem c7_fill_desc_witness :
    (disp_table_fill_desc [dF1, dF2] [fF1]).1 = HUTILS_ERR_NULL_POINTER ∧
    (disp_table_fill_desc [dF1, dF2] [fF1]).2 =
      [{ dF1 with func_fp := some fF1 }, dF2] := by
  have h := c7_fill_desc_pairing [dF1, dF2] [fF1]
  refine ⟨h.2.1 (by decide), ?_⟩
  exact h.2.2.trans rfl

/-! ### Record cleanup lemmas (claim C8) -/

lemma cleanup_op_success (h : disp_op_handler_t) :
    (_disp_table_cleanup_args_op h).1 = HUTILS_SUCCESS := by
  rcases hr : h.ret with _ | b <;>
    by_cases ho : h.op.retval_owner = DISP_OWNER_FUNC <;>
      simp [_disp_table_cleanup_args_op, hr, ho]

lemma cleanup_op_none (h : disp_op_handler_t) (hr : h.ret = none) :
    (_disp_table_cleanup_args_op h).2 = h := by
  simp [_disp_table_cleanup_args_op, hr]

lemma cleanup_op_func (h : disp_op_handler_t) (ho : h.op.retval_owner = DISP_OWNER_FUNC) :
    (_disp_table_cleanup_args_op h).2 = h := by
  rcases hr : h.ret with _ | b <;> simp [_disp_table_cleanup_args_op, hr, ho]

lemma cleanup_op_table (h : disp_op_handler_t) (ho : h.op.retval_owner = DISP_OWNER_TABLE) :
    (_disp_table_cleanup_args_op h).2 = { h with ret := none } := by
  obtain ⟨op, ret⟩ := h
  rcases ret with _ | b
  · rfl
  · simp only at ho
    simp [_disp_table_cleanup_args_op, ho]

lemma cleanup_op_idem (h : disp_op_handler_t) :
    _disp_table_cleanup_args_op (_disp_table_cleanup_args_op h).2 =
      (HUTILS_SUCCESS, (_disp_table_cleanup_args_op h).2) := by
  rcases hr : h.ret with _ | b
  · rw [cleanup_op_none h hr]
    simp [_disp_table_cleanup_args_op, hr]
  · by_cases ho : h.op.retval_owner = DISP_OWNER_FUNC
    · rw [cleanup_op_func h ho]
      simp [_disp_table_cleanup_args_op, hr, ho]
    · have ho2 : h.op.retval_owner = DISP_OWNER_TABLE := by
        cases h2 : h.op.retval_owner
        · rfl
        · exact absurd h2 ho
      rw [cleanup_op_table h ho2]
      simp [_disp_table_cleanup_args_op]

lemma cleanup_args_eq (t : disp_table_t) (k : Nat) (h : disp_op_handler_t)
    (hl : _disp_table_lookup t k = some h) :
    disp_table_cleanup_args t k =
      ((_disp_table_cleanup_args_op h).1,
       { t with table_h := zhash_update t.table_h (hutils_stringify_hex_key k) (_disp_table_cleanup_args_op h).2 }) := by
  simp [disp_table_cleanup_args, hl]

/-- Claim C8: cleanup_args fails with HUTILS_ERR_NO_FUNC_REG when the opcode is
not registered; otherwise it succeeds, is a no-op for OWNER_FUNC entries, and
for OWNER_TABLE entries frees the stored buffer exactly when it is non-nil and
nulls the field; a second cleanup_args returns the same verdict and leaves the
table in the same state as the first. -/
theorem c8_cleanup_args_idempotent (t : disp_table_t) (k : Nat) :
    (_disp_table_lookup t k = none →
        disp_table_cleanup_args t k = (HUTILS_ERR_NO_FUNC_REG, t)) ∧
    (∀ h, _disp_table_lookup t k = some h →
        (disp_table_cleanup_args t k).1 = HUTILS_SUCCESS ∧
        (h.op.retval_owner = DISP_OWNER_FUNC → (disp_table_cleanup_args t k).2 = t) ∧
        (h.op.retval_owner = DISP_OWNER_TABLE →
            _disp_table_lookup (disp_table_cleanup_args t k).2 k =
              some { h with ret := none })) ∧
    disp_table_cleanup_args (disp_table_cleanup_args t k).2 k =
      disp_table_cleanup_args t k := by
  rcases hl : _disp_table_lookup t k with _ | h
  · refine ⟨fun _ => by simp [disp_table_cleanup_args, hl], ?_, ?_⟩
    · intro h2 hsome
      cases hsome
    · simp [disp_table_cleanup_args, hl]
  · have hkey : zhash_lookup t.table_h (hutils_stringify_hex_key k) = some h := hl
    have hres := cleanup_args_eq t k h hl
    refine ⟨fun hnone => Option.noConfusion hnone, ?_, ?_⟩
    · intro h2 hsome
      have hh : h2 = h := (Option.some.inj hsome).symm
      subst hh
      refine ⟨by rw [hres]; exact cleanup_op_success h2, ?_, ?_⟩
      · intro ho
        rw [hres]
        show { t with table_h := zhash_update t.table_h (hutils_stringify_hex_key k) (_disp_table_cleanup_args_op h2).2 } = t
        rw [cleanup_op_func h2 ho, zhash_update_self _ _ _ hkey]
      · intro ho
        rw [hres]
        show zhash_lookup (zhash_update t.table_h (hutils_stringify_hex_key k) (_disp_table_cleanup_args_op h2).2) (hutils_stringify_hex_key k) = some { h2 with ret := none }
        rw [zhash_lookup_update _ _ h2 _ hkey, cleanup_op_table h2 ho]
    · have hl2 : _disp_table_lookup (disp_table_cleanup_args t k).2 k =
          some (_disp_table_cleanup_args_op h).2 := by
        rw [hres]
        show zhash_lookup (zhash_update t.table_h (hutils_stringify_hex_key k) (_disp_table_cleanup_args_op h).2) (hutils_stringify_hex_key k) = some (_disp_table_cleanup_args_op h).2
        exact zhash_lookup_update _ _ h _ hkey
      have hres2 := cleanup_args_eq (disp_table_cleanup_args t k).2 k
        (_disp_table_cleanup_args_op h).2 hl2
      rw [hres2, cleanup_op_idem h, hres]
      show (HUTILS_SUCCESS, { t with table_h := zhash_update (zhash_update t.table_h (hutils_stringify_hex_key k) (_disp_table_cleanup_args_op h).2) (hutils_stringify_hex_key k) (_disp_table_cleanup_args_op h).2 }) = ((_disp_table_cleanup_args_op h).1, { t with table_h := zhash_update t.table_h (hutils_stringify_hex_key k) (_disp_table_cleanup_args_op h).2 })
      rw [zhash_update_self _ _ _ (zhash_lookup_update _ _ h _ hkey), cleanup_op_success h]

/-- Descriptor with opcode 5, table-owned return of size 4. -/
def d8 : disp_op_t :=
  { name := "owned_ret5", opcode := 5, func_fp := none, retval := 4,
    retval_owner := DISP_OWNER_TABLE, args := [] }

/-- The table holding only d8 (its stored buffer is allocated). -/
def t8 : disp_table_t := (_disp_table_insert empty_table d8).2

/-- Claim C8, witness: cleanup of the registered opcode 5 succeeds, nulls the
stored buffer, and a second cleanup changes nothing. -/
theorem c8_cleanup_args_witness :
    (disp_table_cleanup_args t8 5).1 = HUTILS_SUCCESS ∧
    _disp_table_lookup (disp_table_cleanup_args t8 5).2 5 =
      some { op := d8, ret := none } ∧
    disp_table_cleanup_args (disp_table_cleanup_args t8 5).2 5 =
      disp_table_cleanup_args t8 5 := by
  have h := c8_cleanup_args_idempotent t8 5
  have hb := h.2.1 { op := d8, ret := some 0 } rfl
  exact ⟨hb.1, (hb.2.2 rfl).trans rfl, h.2.2⟩

/-- Claim C9: inserting a descriptor whose opcode is already bound in the hash
makes zhash_insert fail, which insert surfaces as HUTILS_ERR_ALLOC after
unwinding its partial allocations; the table is unchanged, so the previously
registered entry is still found and still callable with identical results. -/
theorem c9_duplicate_insert (t : disp_table_t) (d : disp_op_t)
    (hdup : _disp_table_lookup t d.opcode ≠ none) :
    _disp_table_insert t d = (HUTILS_ERR_ALLOC, t) ∧
    _disp_table_lookup (_disp_table_insert t d).2 d.opcode =
      _disp_table_lookup t d.opcode ∧
    ∀ owner args ret, _disp_table_call (_disp_table_insert t d).2 d.opcode owner args ret =
        _disp_table_call t d.opcode owner args ret := by
  have heq : _disp_table_insert t d = (HUTILS_ERR_ALLOC, t) := by
    rw [insert_eq]
    rcases hlk : zhash_lookup t.table_h (hutils_stringify_hex_key d.opcode) with _ | v
    · exact absurd hlk hdup
    · rfl
  refine ⟨heq, by rw [heq], fun owner args ret => by rw [heq]⟩

/-- A handler reporting status 7. -/
def f9 : disp_table_func_fp := fun _ _ _ => 7

/-- Descriptor with opcode 6 bound to f9, no return value. -/
def d9 : disp_op_t :=
  { name := "dup", opcode := 6, func_fp := some f9, retval := DISP_ARG_END,
    retval_owner := DISP_OWNER_FUNC, args := [] }

/-- The table holding only d9. -/
def t9 : disp_table_t := (_disp_table_insert empty_table d9).2

/-- Claim C9, witness: spec scenario S6; the second insert of d9 returns
HUTILS_ERR_ALLOC and the first entry is still intact and callable. -/
theorem c9_duplicate_insert_witness :
    _disp_table_insert t9 d9 = (HUTILS_ERR_ALLOC, t9) ∧
    _disp_table_call (_disp_table_insert t9 d9).2 d9.opcode none none none = 7 := by
  have hdup : _disp_table_lookup t9 d9.opcode ≠ none := by
    rw [show _disp_table_lookup t9 d9.opcode = some { op := d9, ret := none } from rfl]
    exact Option.some_ne_none _
  have h := c9_duplicate_insert t9 d9 hdup
  refine ⟨h.1, ?_⟩
  rw [h.2.2 none none none]
  rfl

/-- Claim C10: the out-parameter of check_args is written exactly on the
success path: a failing check_args (missing opcode, hook rejection, or the
nil-buffer bind failure) leaves the caller variable unchanged. -/
theorem c10_check_args_frame (t : disp_table_t) (k : Nat) (args : cptr) :
    ((_disp_table_check_args t k args).1 = HUTILS_SUCCESS ↔
      ((_disp_table_check_args t k args).2).isSome = true) ∧
    ∀ old : cptr, (_disp_table_check_args t k args).1 ≠ HUTILS_SUCCESS →
      ((_disp_table_check_args t k args).2).getD old = old := by
  have main : (_disp_table_check_args t k args).1 = HUTILS_SUCCESS ↔
      ((_disp_table_check_args t k args).2).isSome = true := by
    rcases hl : _disp_table_lookup t k with _ | h
    · simp [_disp_table_check_args, hl]
    · by_cases hs : disp_table_ops_check_msg t h.op args = HUTILS_SUCCESS
      · by_cases hend : h.op.retval = DISP_ARG_END
        · simp [_disp_table_check_args, hl, hs, _disp_table_set_ret_op, hend]
        · rcases hr : h.ret with _ | b
          · simp [_disp_table_check_args, hl, hs, _disp_table_set_ret_op, hend, hr]
          · simp [_disp_table_check_args, hl, hs, _disp_table_set_ret_op, hend, hr]
      · simp [_disp_table_check_args, hl, hs]
  refine ⟨main, fun old hne => ?_⟩
  rcases hw : (_disp_table_check_args t k args).2 with _ | w
  · rfl
  · exact absurd (main.mpr (by rw [hw]; rfl)) hne

/-- Claim C10, witness: a failing check_args on the empty table leaves the
caller variable at its previous value. -/
theorem c10_check_args_frame_witness :
    ((_disp_table_check_args empty_table 11 none).2).getD (some 42) = some 42 :=
  (c10_check_args_frame empty_table 11 none).2 (some 42) (by decide)
